import Mathlib

/-!
Verification of the endpoint-synthesis pipeline of `external-dns`:
the IPv6-suppression source decorator (`source/suppress_ipv6.go`) and the
node endpoint producer it is composed with.

The decorator's code is embedded directly from `source/suppress_ipv6.go`.
Its target filter calls Go's `net.ParseIP` and `IP.To4`, so those stdlib
functions are embedded as well (`dtoi`, `xtoi`, `parseIPv4`, `parseIPv6`,
`ParseIP`, `To4` below follow the Go `net` package parser).

The node producer itself (`NewNodeSource` / `nodeSource.Endpoints`) is not
part of the given sources — only its test fixture is — so it is modelled
from the specification; every such definition carries a doc comment
starting `Modelled from the spec:`.
-/

/-! ## Data model -/

/-- A TTL value together with its "configured" flag.
Modelled from the spec: `RecordTTL`: optional signed integer with an
explicit "configured" flag (the `endpoint` package is not among the given
sources). -/
structure TTLCfg where
  value : Int
  configured : Bool
deriving DecidableEq, Repr

/-- One DNS record candidate, `endpoint.Endpoint`.
Modelled from the spec: DNSName, RecordType, Targets, RecordTTL, Labels
(the `endpoint` package is not among the given sources). `labels = none`
models a nil Go map, `some m` an allocated map as an association list. -/
structure Endpoint where
  dnsName : String
  targets : List String
  recordType : String
  recordTTL : TTLCfg
  labels : Option (List (String × String))
deriving DecidableEq, Repr

/-- Errors surfaced by the pipeline.
Modelled from the spec: error taxonomy of §7 — AddressUnavailableError,
ConfigurationError (invalid template), UpstreamError. -/
inductive GoError where
  | noAddresses (nodeName : String)
  | invalidTemplate (tmpl : String)
  | upstream (msg : String)
deriving DecidableEq, Repr

/-- Opaque context token passed through `Endpoints`/`AddEventHandler`. -/
abbrev Ctx := Nat

/-- Opaque identity of a registered zero-argument callback. -/
abbrev Callback := Nat

/-- The `Source` composition contract: `Endpoints(ctx)` returns a slice and
an error (Go's multiple return, modelled as a pair with `Option GoError`);
`AddEventHandler(ctx, f)` is modelled by its effect: the list of
registrations it performs on base producers. -/
structure Source where
  endpoints : Ctx → List Endpoint × Option GoError
  addEventHandler : Ctx → Callback → List (Ctx × Callback)

/-! ## Go `net.ParseIP` / `IP.To4`, embedded from the Go standard library

`getIp4Targets` keeps a target iff `net.ParseIP(target)` is non-nil and
`.To4()` is non-nil.  `ParseIP` scans for the first `.` or `:` and
dispatches to the dotted-quad or the IPv6 parser; both produce a 16-byte
address, dotted quads with the IPv4-in-IPv6 header `0..0:ffff`. -/

def isDigitCh (c : Char) : Bool := '0' ≤ c && c ≤ '9'

def isHexCh (c : Char) : Bool :=
  ('0' ≤ c && c ≤ '9') || ('a' ≤ c && c ≤ 'f') || ('A' ≤ c && c ≤ 'F')

def digitVal (c : Char) : Nat := c.toNat - '0'.toNat

def hexVal (c : Char) : Nat :=
  if '0' ≤ c && c ≤ '9' then c.toNat - '0'.toNat
  else if 'a' ≤ c && c ≤ 'f' then c.toNat - 'a'.toNat + 10
  else c.toNat - 'A'.toNat + 10

def decValue (ds : List Char) : Nat := ds.foldl (fun n c => n * 10 + digitVal c) 0

def hexValue (ds : List Char) : Nat := ds.foldl (fun n c => n * 16 + hexVal c) 0

/-- Go `net.dtoi`: decimal prefix; fails on no digits or a value reaching
`big = 0xFFFFFF`. Returns the value and the unconsumed suffix. -/
def dtoi (s : List Char) : Option (Nat × List Char) :=
  let p := s.span isDigitCh
  if p.1 = [] then none
  else if 0xFFFFFF ≤ decValue p.1 then none
  else some (decValue p.1, p.2)

/-- Go `net.xtoi`: hexadecimal prefix; fails on no digits or a value
reaching `big = 0xFFFFFF`. -/
def xtoi (s : List Char) : Option (Nat × List Char) :=
  let p := s.span isHexCh
  if p.1 = [] then none
  else if 0xFFFFFF ≤ hexValue p.1 then none
  else some (hexValue p.1, p.2)

/-- One octet of a dotted quad: `dtoi`, at most 255, and no non-trivial
leading zero (`c > 1 && s[0] == '0'` is rejected). -/
def parseOctet (s : List Char) : Option (Nat × List Char) :=
  match dtoi s with
  | none => none
  | some (n, rest) =>
    if 255 < n then none
    else if 1 < s.length - rest.length && s.headD ' ' = '0' then none
    else some (n, rest)

/-- The remaining `k` octets of a dotted quad, each preceded by a dot;
afterwards the string must be exhausted. -/
def parseIPv4More : Nat → List Char → Option (List Nat)
  | 0, s => if s = [] then some [] else none
  | Nat.succ k, s =>
    match s with
    | '.' :: s2 =>
      match parseOctet s2 with
      | none => none
      | some (n, rest) => (parseIPv4More k rest).map (fun ns => n :: ns)
    | _ => none

/-- Go `net.parseIPv4`: exactly four dot-separated octets, returned as the
four address bytes. -/
def parseIPv4 (s : List Char) : Option (List Nat) :=
  match parseOctet s with
  | none => none
  | some (n, rest) => (parseIPv4More 3 rest).map (fun ns => n :: ns)

/-- The final bookkeeping of Go `net.parseIPv6`: the string must be
exhausted; fewer than 16 bytes require an ellipsis, which expands to the
missing zero bytes at its position; exactly 16 bytes forbid an ellipsis. -/
def ipv6Finish (acc : List Nat) (ell : Option Nat) : Option (List Nat) :=
  if acc.length < 16 then
    match ell with
    | none => none
    | some e => some (acc.take e ++ List.replicate (16 - acc.length) 0 ++ acc.drop e)
  else
    match ell with
    | some _ => none
    | none => some acc

/-- The group loop of Go `net.parseIPv6`: hex groups separated by colons,
at most one `::`, an optional trailing embedded dotted quad.  `acc` holds
the bytes produced so far, `ell` the byte position of the ellipsis.  Fuel
is the length of the remaining input plus one; every recursive call drops
at least two characters. -/
def parseIPv6Loop : Nat → List Char → List Nat → Option Nat → Option (List Nat)
  | 0, _, _, _ => none
  | Nat.succ fuel, s, acc, ell =>
    if 16 ≤ acc.length then (if s = [] then ipv6Finish acc ell else none)
    else
      match xtoi s with
      | none => none
      | some (n, rest) =>
        if 0xFFFF < n then none
        else if rest.headD ' ' = '.' then
          if ell = none && acc.length ≠ 12 then none
          else if 16 < acc.length + 4 then none
          else
            match parseIPv4 s with
            | none => none
            | some p4 => ipv6Finish (acc ++ p4) ell
        else
          match rest with
          | [] => ipv6Finish (acc ++ [n / 256, n % 256]) ell
          | c :: rest2 =>
            if c ≠ ':' || rest2 = [] then none
            else
              match rest2 with
              | ':' :: rest3 =>
                if ell ≠ none then none
                else if rest3 = [] then
                  ipv6Finish (acc ++ [n / 256, n % 256]) (some (acc.length + 2))
                else
                  parseIPv6Loop fuel rest3 (acc ++ [n / 256, n % 256]) (some (acc.length + 2))
              | _ => parseIPv6Loop fuel rest2 (acc ++ [n / 256, n % 256]) ell

/-- Go `net.parseIPv6`: an optional leading `::` (possibly the whole
string), then the group loop. -/
def parseIPv6 (s : List Char) : Option (List Nat) :=
  match s with
  | ':' :: ':' :: rest =>
    if rest = [] then some (List.replicate 16 0)
    else parseIPv6Loop (rest.length + 1) rest [] (some 0)
  | _ => parseIPv6Loop (s.length + 1) s [] none

/-- The IPv4-in-IPv6 header `0,…,0,0xff,0xff` prepended by `net.IPv4`. -/
def v4inV6 : List Nat := [0, 0, 0, 0, 0, 0, 0, 0, 0, 0, 255, 255]

/-- Go `net.ParseIP`: scan for the first `.` or `:`; a dot dispatches to
the dotted-quad parser (result stored 4-in-6), a colon to the IPv6 parser;
neither present means failure. -/
def goParseIPScan : List Char → List Char → Option (List Nat)
  | _, [] => none
  | s, c :: rest =>
    if c = '.' then (parseIPv4 s).map (fun p => v4inV6 ++ p)
    else if c = ':' then parseIPv6 s
    else goParseIPScan s rest

def goParseIP (s : String) : Option (List Nat) := goParseIPScan s.toList s.toList

/-- Go `net.IP.To4`: a 4-byte address is returned as is; a 16-byte address
with the IPv4-in-IPv6 header yields its last four bytes; anything else is
nil. -/
def goTo4 (ip : List Nat) : Option (List Nat) :=
  if ip.length = 4 then some ip
  else if ip.length = 16 && ip.take 12 = v4inV6 then some (ip.drop 12)
  else none

/-- The kept-target condition of `getIp4Targets` (suppress_ipv6.go line
25): `ip := net.ParseIP(target); ip != nil && ip.To4() != nil`. -/
def isIp4Target (t : String) : Bool :=
  match goParseIP t with
  | none => false
  | some ip => (goTo4 ip).isSome

/-- A string that is a valid IPv4 literal, following the spec's words
("entries that parse as a valid IPv4 literal"): a dotted-quad literal,
i.e. one accepted by the dotted-quad parser.  Kept separate from
`isIp4Target` (the code's condition) so the two can be compared. -/
def specIsIPv4Literal (t : String) : Bool := (parseIPv4 t.toList).isSome

/-! ## The suppression decorator, embedded from `source/suppress_ipv6.go` -/

/-- `getIp4Targets` (suppress_ipv6.go lines 21–33): keep, in order, the
targets whose `net.ParseIP` is non-nil with non-nil `To4()`. -/
def getIp4Targets : List String → List String
  | [] => []
  | t :: rest => if isIp4Target t then t :: getIp4Targets rest else getIp4Targets rest

/-- The per-list body of `suppressIPv6Source.Endpoints` (lines 40–53):
for each endpoint, filter its targets; if any survive, append a copy of
the endpoint with the filtered targets, otherwise drop the endpoint. -/
def suppressList : List Endpoint → List Endpoint
  | [] => []
  | ep :: rest =>
    let ts := getIp4Targets ep.targets
    if 0 < ts.length then { ep with targets := ts } :: suppressList rest
    else suppressList rest

/-- `suppressIPv6Source.Endpoints` (lines 35–54) applied to the wrapped
source's result: a non-nil error is returned together with the upstream
slice, unchanged; otherwise the list is filtered. -/
def suppressUpstream (r : List Endpoint × Option GoError) : List Endpoint × Option GoError :=
  match r with
  | (eps, some e) => (eps, some e)
  | (eps, none) => (suppressList eps, none)

/-- `NewSuppressIPv6Source` (lines 15–19) together with the method set of
`suppressIPv6Source`: `Endpoints` post-processes the wrapped source's
result, `AddEventHandler` (lines 56–58) forwards verbatim. -/
def NewSuppressIPv6Source (original : Source) : Source :=
  { endpoints := fun ctx => suppressUpstream (original.endpoints ctx)
    addEventHandler := fun ctx f => original.addEventHandler ctx f }

/-- `n` nested applications of the suppression decorator. -/
def suppressChain : Nat → Source → Source
  | 0, s => s
  | Nat.succ n, s => NewSuppressIPv6Source (suppressChain n s)

/-- Modelled from the spec: the base producer owns an explicit
registration list and `AddEventHandler` appends one entry to it (§9
"explicit registration list owned by the base producer"; the base
producer's code is not among the given sources). -/
def mkBaseSource (epFn : Ctx → List Endpoint × Option GoError) : Source :=
  { endpoints := epFn
    addEventHandler := fun ctx f => [(ctx, f)] }

/-! ## The node endpoint producer, modelled from the spec

`NewNodeSource` and `nodeSource.Endpoints` are exercised by the given test
fixture but their own code is not among the given sources; the model below
follows §4.2, §4.4 and §6 of the spec and is checked against the fixture's
expectations. -/

/-- The reserved controller-ownership annotation key (§6). -/
def controllerAnnotationKey : String := "external-dns.alpha.kubernetes.io/controller"

/-- This controller's identity string (the fixture calls it
"dns-controller"). -/
def controllerAnnotationValue : String := "dns-controller"

/-- The reserved TTL annotation key (§6). -/
def ttlAnnotationKey : String := "external-dns.alpha.kubernetes.io/ttl"

/-- The node address types the producer inspects. -/
inductive NodeAddressType where
  | externalIP
  | internalIP
  | hostname
deriving DecidableEq, Repr

/-- One entry of a node's address list. -/
structure NodeAddress where
  addrType : NodeAddressType
  address : String
deriving DecidableEq, Repr

/-- A cluster node as the producer sees it; `nodeLabels = none` models a
nil label map. -/
structure Node where
  name : String
  nodeLabels : Option (List (String × String))
  annotations : List (String × String)
  addresses : List NodeAddress
deriving DecidableEq, Repr

/-- The addresses of one type, in address-list order. -/
def addressesOf (t : NodeAddressType) (addrs : List NodeAddress) : List String :=
  (addrs.filter (fun a => a.addrType == t)).map (fun a => a.address)

/-- Modelled from the spec: address selection (§4.2 step 5) — all
ExternalIP addresses if any, else all InternalIP addresses if any, else
failure. -/
def getNodeTargets (addrs : List NodeAddress) : Option (List String) :=
  let ext := addressesOf NodeAddressType.externalIP addrs
  if ext ≠ [] then some ext
  else
    let intl := addressesOf NodeAddressType.internalIP addrs
    if intl ≠ [] then some intl else none

/-- Modelled from the spec: "non-negative integer" annotation value — a
nonempty all-digit string. -/
def parseNonNegInt (s : String) : Option Nat :=
  if s.toList ≠ [] && s.toList.all isDigitCh then some (decValue s.toList) else none

/-- Modelled from the spec: TTL resolution (§4.2 step 6) — an absent or
unparseable TTL annotation leaves the TTL unconfigured (0, flag false),
an annotation parsing as a non-negative integer sets it with the flag
true. -/
def getTTLFromAnnotations (anns : List (String × String)) : TTLCfg :=
  match List.lookup ttlAnnotationKey anns with
  | none => ⟨0, false⟩
  | some v =>
    match parseNonNegInt v with
    | none => ⟨0, false⟩
    | some n => ⟨(n : Int), true⟩

/-- Modelled from the spec: FQDN template syntax (§4.4, §6) — actions are
opened by a double brace and must be closed by a double brace; a template
is syntactically valid when no action is left unclosed.  The boolean
argument tells whether the scan is inside an action. -/
def scanTemplate : Bool → List Char → Bool
  | false, [] => true
  | true, [] => false
  | false, '\x7b' :: '\x7b' :: rest => scanTemplate true rest
  | false, _ :: rest => scanTemplate false rest
  | true, '\x7d' :: '\x7d' :: rest => scanTemplate false rest
  | true, _ :: rest => scanTemplate true rest

/-- Modelled from the spec: a syntactically valid FQDN template. -/
def validTemplate (tmpl : String) : Bool := scanTemplate false tmpl.toList

/-- Left-to-right, non-overlapping replacement of a nonempty pattern.
The fuel starts one above the input length; every step consumes at least
one character. -/
def replaceChars : Nat → List Char → List Char → List Char → List Char
  | 0, _, _, s => s
  | Nat.succ fuel, pat, sub, s =>
    if pat.isPrefixOf s && pat ≠ [] then sub ++ replaceChars fuel pat sub (s.drop pat.length)
    else
      match s with
      | [] => []
      | c :: rest => c :: replaceChars fuel pat sub rest

/-- Modelled from the spec: template expansion (§4.4) — substitute the
node's Name (Namespace is empty for nodes); an empty template means the
node's own name verbatim (§4.2 step 4). -/
def expandTemplate (tmpl name : String) : String :=
  if tmpl = "" then name
  else
    let step1 := replaceChars (tmpl.toList.length + 1) "\x7b\x7b.Name\x7d\x7d".toList name.toList tmpl.toList
    String.mk (replaceChars (step1.length + 1) "\x7b\x7b.Namespace\x7d\x7d".toList [] step1)

/-- Modelled from the spec: the configuration a successfully built node
producer holds. -/
structure NodeSourceModel where
  annotationFilter : String
  fqdnTemplate : String
deriving DecidableEq, Repr

/-- Modelled from the spec: the `NewNodeSource` constructor (§6) — fails
exactly on invalid `fqdnTemplate` syntax, otherwise returns the producer. -/
def NewNodeSource (annFilter fqdnTemplate : String) : Except GoError NodeSourceModel :=
  if validTemplate fqdnTemplate then Except.ok ⟨annFilter, fqdnTemplate⟩
  else Except.error (GoError.invalidTemplate fqdnTemplate)

/-- Modelled from the spec: ownership check (§4.2 step 1) — a node
carrying the controller annotation is processed only when its value equals
this controller's identity; absence means processed normally. -/
def ownedByUs (n : Node) : Bool :=
  match List.lookup controllerAnnotationKey n.annotations with
  | none => true
  | some v => v == controllerAnnotationValue

/-- Modelled from the spec: the endpoint emitted for one qualifying node
(§4.2 steps 4–7), or the fatal no-address error (step 5). -/
def nodeEndpoint (tmpl : String) (n : Node) : Except GoError Endpoint :=
  match getNodeTargets n.addresses with
  | none => Except.error (GoError.noAddresses n.name)
  | some ts =>
    Except.ok
      { dnsName := expandTemplate tmpl n.name
        targets := ts
        recordType := "A"
        recordTTL := getTTLFromAnnotations n.annotations
        labels := some (n.nodeLabels.getD []) }

/-- Modelled from the spec: `nodeSource.Endpoints` over the node list —
skipped nodes (ownership) contribute nothing, a node without routable
addresses aborts the whole call with an error and no partial result. -/
def nodeSourceEndpoints (tmpl : String) : List Node → Except GoError (List Endpoint)
  | [] => Except.ok []
  | n :: rest =>
    if ownedByUs n then
      match nodeEndpoint tmpl n with
      | Except.error e => Except.error e
      | Except.ok ep => (nodeSourceEndpoints tmpl rest).map (fun eps => ep :: eps)
    else nodeSourceEndpoints tmpl rest

/-- The per-endpoint action of `suppressIPv6Source.Endpoints`, factored
out: `some` of the copied endpoint with the filtered targets if any
survive, `none` otherwise. -/
def suppressOne (ep : Endpoint) : Option Endpoint :=
  if 0 < (getIp4Targets ep.targets).length then
    some { ep with targets := getIp4Targets ep.targets }
  else none

/-! ## Concrete sample values used in witnesses and counterexamples -/

/-- The endpoint of the fixture example: mixed IPv4 / IPv6 / junk targets. -/
def epMixed : Endpoint :=
  { dnsName := "node1", targets := ["1.2.3.4", "::1", "not-an-ip"]
    recordType := "A", recordTTL := ⟨0, false⟩, labels := none }

/-- An endpoint whose only target is IPv6. -/
def epV6only : Endpoint :=
  { dnsName := "node2", targets := ["::1"]
    recordType := "A", recordTTL := ⟨0, false⟩, labels := none }

/-- An endpoint with a single plain IPv4 target. -/
def epV4only : Endpoint :=
  { dnsName := "node3", targets := ["1.2.3.4"]
    recordType := "A", recordTTL := ⟨300, true⟩, labels := some [("k", "v")] }

/-- An endpoint whose only target is an IPv4-mapped IPv6 literal. -/
def epMapped : Endpoint :=
  { dnsName := "node4", targets := ["::ffff:1.2.3.4"]
    recordType := "A", recordTTL := ⟨0, false⟩, labels := none }

/-- A node without any ExternalIP or InternalIP address. -/
def nodeNoAddr : Node := { name := "node1", nodeLabels := none, annotations := [], addresses := [] }

/-- A node with one ExternalIP address and a TTL annotation of "10". -/
def nodeTTL10 : Node :=
  { name := "node1", nodeLabels := none
    annotations := [(ttlAnnotationKey, "10")]
    addresses := [⟨NodeAddressType.externalIP, "1.2.3.4"⟩] }

/-- A wrapped source whose `Endpoints` always fails upstream. -/
def errSource : Source := mkBaseSource (fun _ => ([], some (GoError.upstream "boom")))

/-! ## Helper lemmas -/

/-- `getIp4Targets` is `List.filter` of the kept-target condition. -/
theorem getIp4Targets_eq_filter (ts : List String) :
    getIp4Targets ts = List.filter isIp4Target ts := by
  induction ts with
  | nil => rfl
  | cons t rest ih => cases h : isIp4Target t <;> simp [getIp4Targets, List.filter_cons, h, ih]

/-- The filtered targets form a subsequence of the original targets. -/
theorem getIp4Targets_sublist (ts : List String) : (getIp4Targets ts).Sublist ts := by
  rw [getIp4Targets_eq_filter]
  exact List.filter_sublist ts

/-- Filtering already-filtered targets changes nothing. -/
theorem getIp4Targets_idem (ts : List String) :
    getIp4Targets (getIp4Targets ts) = getIp4Targets ts := by
  induction ts with
  | nil => rfl
  | cons t rest ih => cases h : isIp4Target t <;> simp [getIp4Targets, h, ih]

/-- The endpoint loop of `suppressIPv6Source.Endpoints` is `List.filterMap`
of the per-endpoint action. -/
theorem suppressList_eq_filterMap (eps : List Endpoint) :
    suppressList eps = List.filterMap suppressOne eps := by
  induction eps with
  | nil => rfl
  | cons ep rest ih =>
    by_cases h : 0 < (getIp4Targets ep.targets).length <;>
      simp [suppressList, suppressOne, h, ih, List.filterMap_cons]

/-- The only error the modelled node producer raises during `Endpoints`
for a single node is the fatal no-address error, carrying the node's
name. -/
theorem nodeEndpoint_error (tmpl : String) (n : Node) (e : GoError)
    (h : nodeEndpoint tmpl n = Except.error e) : e = GoError.noAddresses n.name := by
  cases hg : getNodeTargets n.addresses <;> simp [nodeEndpoint, hg] at h
  exact h.symm

/-! ## Claims about the suppression decorator -/

/-- C1 counterexample: the decorator keeps the target `"::ffff:1.2.3.4"`
(and the endpoint carrying it) unchanged, although that entry is not a
valid IPv4 literal — it is rejected by the dotted-quad parser and accepted
by the IPv6 grammar — so `Endpoints` does not rewrite `Targets` to exactly
the subsequence of valid IPv4 literals, and an entry that parses as IPv6
is not dropped. -/
theorem c1_counterexample :
    suppressList [epMapped] = [epMapped] ∧
    getIp4Targets ["::ffff:1.2.3.4"] = ["::ffff:1.2.3.4"] ∧
    specIsIPv4Literal "::ffff:1.2.3.4" = false ∧
    (parseIPv6 "::ffff:1.2.3.4".toList).isSome = true ∧
    List.filter specIsIPv4Literal ["::ffff:1.2.3.4"] = [] := by
  refine ⟨?_, by decide, by decide, by decide, by decide⟩
  decide

/-- C1 (amended): for every endpoint list returned by the wrapped source,
the decorator's `Endpoints` rewrites each endpoint's `Targets` to exactly
the ordered subsequence of entries that `net.ParseIP` accepts with a
non-nil `To4()` — dotted-quad IPv4 literals and IPv4-mapped IPv6 literals
such as `"::ffff:1.2.3.4"` — dropping entries that fail to parse or parse
as non-IPv4-mapped IPv6, and dropping endpoints left without targets; in
particular targets `["1.2.3.4", "::1", "not-an-ip"]` become
`["1.2.3.4"]`. -/
theorem c1_targets_rewritten :
    (∀ eps : List Endpoint,
        suppressList eps =
          List.filterMap
            (fun ep =>
              if List.filter isIp4Target ep.targets = [] then none
              else some { ep with targets := List.filter isIp4Target ep.targets })
            eps) ∧
    isIp4Target "1.2.3.4" = true ∧
    isIp4Target "::ffff:1.2.3.4" = true ∧
    isIp4Target "::1" = false ∧
    isIp4Target "not-an-ip" = false ∧
    getIp4Targets ["1.2.3.4", "::1", "not-an-ip"] = ["1.2.3.4"] := by
  refine ⟨?_, by decide, by decide, by decide, by decide, by decide⟩
  intro eps
  induction eps with
  | nil => rfl
  | cons ep rest ih =>
    by_cases h : List.filter isIp4Target ep.targets = []
    · have h0 : ¬ 0 < (getIp4Targets ep.targets).length := by
        rw [getIp4Targets_eq_filter, h]; simp
      rw [List.filterMap_cons, if_pos h]
      simp only [suppressList]
      rw [if_neg h0]
      exact ih
    · have h0 : 0 < (getIp4Targets ep.targets).length := by
        rw [getIp4Targets_eq_filter]
        exact List.length_pos.mpr h
      rw [List.filterMap_cons, if_neg h]
      simp only [suppressList]
      rw [if_pos h0, ih, getIp4Targets_eq_filter]

/-- C3: an endpoint none of whose targets survives the IPv4 filter is
omitted entirely from the decorator's result, and no endpoint the
decorator emits has an empty target list. -/
theorem c3_empty_targets_dropped :
    (∀ (pre post : List Endpoint) (ep : Endpoint),
        getIp4Targets ep.targets = [] →
          suppressList (pre ++ ep :: post) = suppressList (pre ++ post)) ∧
    (∀ (eps : List Endpoint) (ep : Endpoint), ep ∈ suppressList eps → ep.targets ≠ []) := by
  constructor
  · intro pre post ep h
    induction pre with
    | nil => simp [suppressList, h]
    | cons p pre ih =>
      by_cases hp : 0 < (getIp4Targets p.targets).length <;>
        simp [suppressList, hp, ih]
  · intro eps
    induction eps with
    | nil => intro ep h; simp [suppressList] at h
    | cons e rest ih =>
      intro ep h
      by_cases he : 0 < (getIp4Targets e.targets).length
      · simp only [suppressList, if_pos he, List.mem_cons] at h
        rcases h with h | h
        · rw [h]
          simpa using List.length_pos.mp he
        · exact ih ep h
      · simp only [suppressList, if_neg he] at h
        exact ih ep h

/-- C4: an upstream error is passed through unchanged, together with the
upstream slice, and no filtering is applied to it. -/
theorem c4_error_passthrough (s : Source) (ctx : Ctx) (eps : List Endpoint) (e : GoError)
    (h : s.endpoints ctx = (eps, some e)) :
    (NewSuppressIPv6Source s).endpoints ctx = (eps, some e) := by
  simp [NewSuppressIPv6Source, suppressUpstream, h]

/-- C4 witness: a source failing with `upstream "boom"` has its error and
slice returned unchanged by the decorator. -/
theorem c4_error_passthrough_witness :
    (NewSuppressIPv6Source errSource).endpoints 0 = ([], some (GoError.upstream "boom")) :=
  c4_error_passthrough errSource 0 [] (GoError.upstream "boom") rfl

/-- C5: every endpoint the decorator emits agrees with a wrapped-source
endpoint on every field other than `Targets` (DNSName, RecordType,
RecordTTL, Labels), its `Targets` being that endpoint's filtered targets;
the decorator being a pure function of the input list, the wrapped
source's endpoints themselves are left unmodified. -/
theorem c5_fields_copied (eps : List Endpoint) (ep2 : Endpoint)
    (h : ep2 ∈ suppressList eps) :
    ∃ ep ∈ eps, ep2.dnsName = ep.dnsName ∧ ep2.recordType = ep.recordType ∧
      ep2.recordTTL = ep.recordTTL ∧ ep2.labels = ep.labels ∧
      ep2.targets = getIp4Targets ep.targets := by
  induction eps with
  | nil => simp [suppressList] at h
  | cons e rest ih =>
    by_cases he : 0 < (getIp4Targets e.targets).length
    · simp only [suppressList, if_pos he, List.mem_cons] at h
      rcases h with h | h
      · exact ⟨e, List.mem_cons_self e rest, by rw [h], by rw [h], by rw [h], by rw [h], by rw [h]⟩
      · obtain ⟨ep, hmem, hrest⟩ := ih h
        exact ⟨ep, List.mem_cons_of_mem e hmem, hrest⟩
    · simp only [suppressList, if_neg he] at h
      obtain ⟨ep, hmem, hrest⟩ := ih h
      exact ⟨ep, List.mem_cons_of_mem e hmem, hrest⟩

/-- C5 witness: the decorator applied to `[epMixed]` emits an endpoint
agreeing with `epMixed` on all fields but `Targets`. -/
theorem c5_fields_copied_witness :
    ∃ ep ∈ [epMixed],
      ({ epMixed with targets := ["1.2.3.4"] } : Endpoint).dnsName = ep.dnsName ∧
      ({ epMixed with targets := ["1.2.3.4"] } : Endpoint).recordType = ep.recordType ∧
      ({ epMixed with targets := ["1.2.3.4"] } : Endpoint).recordTTL = ep.recordTTL ∧
      ({ epMixed with targets := ["1.2.3.4"] } : Endpoint).labels = ep.labels ∧
      ({ epMixed with targets := ["1.2.3.4"] } : Endpoint).targets = getIp4Targets ep.targets :=
  c5_fields_copied [epMixed] { epMixed with targets := ["1.2.3.4"] } (by decide)

/-- C6: `AddEventHandler` on the decorator invokes the wrapped source's
`AddEventHandler` exactly once with the same arguments, so any chain of
suppression decorators produces the same registrations as the wrapped
source itself; around a base producer, one call yields exactly one
registration with the original arguments. -/
theorem c6_event_handler_forwarded :
    (∀ (s : Source) (ctx : Ctx) (f : Callback),
        (NewSuppressIPv6Source s).addEventHandler ctx f = s.addEventHandler ctx f) ∧
    (∀ (n : Nat) (s : Source) (ctx : Ctx) (f : Callback),
        (suppressChain n s).addEventHandler ctx f = s.addEventHandler ctx f) ∧
    (∀ (n : Nat) (epFn : Ctx → List Endpoint × Option GoError) (ctx : Ctx) (f : Callback),
        (suppressChain n (mkBaseSource epFn)).addEventHandler ctx f = [(ctx, f)]) := by
  have hchain : ∀ (n : Nat) (s : Source) (ctx : Ctx) (f : Callback),
      (suppressChain n s).addEventHandler ctx f = s.addEventHandler ctx f := by
    intro n
    induction n with
    | zero => intro s ctx f; rfl
    | succ n ih => intro s ctx f; exact ih s ctx f
  exact ⟨fun s ctx f => rfl, hchain, fun n epFn ctx f => hchain n (mkBaseSource epFn) ctx f⟩

/-- C7: the decorator invents no endpoints — its output aligns one-to-one,
in order, with a subsequence of distinct endpoints of the wrapped source's
output, each output endpoint carrying a subsequence of its counterpart's
targets and the same remaining fields. -/
theorem c7_no_invented_endpoints (eps : List Endpoint) :
    ∃ sub : List Endpoint, sub.Sublist eps ∧
      List.Forall₂
        (fun o i => o.targets.Sublist i.targets ∧ o.dnsName = i.dnsName ∧
          o.recordType = i.recordType ∧ o.recordTTL = i.recordTTL ∧ o.labels = i.labels)
        (suppressList eps) sub := by
  induction eps with
  | nil => exact ⟨[], List.Sublist.refl [], List.Forall₂.nil⟩
  | cons ep rest ih =>
    obtain ⟨sub, hsub, hall⟩ := ih
    by_cases h : 0 < (getIp4Targets ep.targets).length
    · refine ⟨ep :: sub, hsub.cons₂ ep, ?_⟩
      have hs : suppressList (ep :: rest) =
          { ep with targets := getIp4Targets ep.targets } :: suppressList rest := by
        simp only [suppressList]
        rw [if_pos h]
      rw [hs]
      exact List.Forall₂.cons ⟨getIp4Targets_sublist ep.targets, rfl, rfl, rfl, rfl⟩ hall
    · refine ⟨sub, hsub.cons ep, ?_⟩
      have hs : suppressList (ep :: rest) = suppressList rest := by
        simp only [suppressList]
        rw [if_neg h]
      rw [hs]
      exact hall

/-- C10: the decorator is idempotent — re-filtering filtered targets keeps
them all, filtering an already-filtered endpoint list changes nothing, and
a doubly wrapped source answers `Endpoints` exactly as a singly wrapped
one. -/
theorem c10_idempotent :
    (∀ ts : List String, getIp4Targets (getIp4Targets ts) = getIp4Targets ts) ∧
    (∀ eps : List Endpoint, suppressList (suppressList eps) = suppressList eps) ∧
    (∀ (s : Source) (ctx : Ctx),
        (NewSuppressIPv6Source (NewSuppressIPv6Source s)).endpoints ctx =
          (NewSuppressIPv6Source s).endpoints ctx) := by
  have hlist : ∀ eps : List Endpoint, suppressList (suppressList eps) = suppressList eps := by
    intro eps
    induction eps with
    | nil => rfl
    | cons ep rest ih =>
      by_cases h : 0 < (getIp4Targets ep.targets).length
      · have hs : suppressList (ep :: rest) =
            { ep with targets := getIp4Targets ep.targets } :: suppressList rest := by
          simp only [suppressList]
          rw [if_pos h]
        rw [hs]
        have h2 : 0 < (getIp4Targets ({ ep with targets := getIp4Targets ep.targets } : Endpoint).targets).length := by
          simpa [getIp4Targets_idem] using h
        simp only [suppressList]
        rw [if_pos h2, ih]
        simp [getIp4Targets_idem]
      · have hs : suppressList (ep :: rest) = suppressList rest := by
          simp only [suppressList]
          rw [if_neg h]
        rw [hs, ih]
  refine ⟨getIp4Targets_idem, hlist, ?_⟩
  intro s ctx
  show suppressUpstream (suppressUpstream (s.endpoints ctx)) = suppressUpstream (s.endpoints ctx)
  rcases hse : s.endpoints ctx with ⟨eps, oe⟩
  cases oe with
  | none => simp [suppressUpstream, hlist]
  | some e => simp [suppressUpstream]

/-! ## Claims about the node endpoint producer (modelled from the spec) -/

/-- C2: address selection — a node with at least one ExternalIP address
gets exactly the ExternalIP addresses, in address-list order, as targets;
otherwise the InternalIP addresses if any; a processed node with neither
makes the entire `Endpoints` call fail, wherever it sits in the node
list. -/
theorem c2_address_selection :
    (∀ addrs : List NodeAddress,
        addressesOf NodeAddressType.externalIP addrs ≠ [] →
          getNodeTargets addrs = some (addressesOf NodeAddressType.externalIP addrs)) ∧
    (∀ addrs : List NodeAddress,
        addressesOf NodeAddressType.externalIP addrs = [] →
        addressesOf NodeAddressType.internalIP addrs ≠ [] →
          getNodeTargets addrs = some (addressesOf NodeAddressType.internalIP addrs)) ∧
    getNodeTargets [⟨NodeAddressType.externalIP, "1.2.3.4"⟩, ⟨NodeAddressType.internalIP, "2.3.4.5"⟩] =
      some ["1.2.3.4"] ∧
    getNodeTargets [⟨NodeAddressType.internalIP, "2.3.4.5"⟩] = some ["2.3.4.5"] ∧
    (∀ (tmpl : String) (pre post : List Node) (n : Node),
        getNodeTargets n.addresses = none → ownedByUs n = true →
          ∃ e : GoError, nodeSourceEndpoints tmpl (pre ++ n :: post) = Except.error e) := by
  refine ⟨?_, ?_, by decide, by decide, ?_⟩
  · intro addrs h
    simp [getNodeTargets, h]
  · intro addrs hext hint
    simp [getNodeTargets, hext, hint]
  · intro tmpl pre post n hn howned
    induction pre with
    | nil =>
      refine ⟨GoError.noAddresses n.name, ?_⟩
      simp [nodeSourceEndpoints, howned, nodeEndpoint, hn]
    | cons p pre ih =>
      obtain ⟨e, he⟩ := ih
      by_cases hp : ownedByUs p = true
      · cases hq : nodeEndpoint tmpl p with
        | error e2 => exact ⟨e2, by simp [nodeSourceEndpoints, hp, hq]⟩
        | ok ep => exact ⟨e, by simp [nodeSourceEndpoints, hp, hq, he, Except.map]⟩
      · exact ⟨e, by simp [nodeSourceEndpoints, hp, he]⟩

/-- C2 witness: with both address types present only the ExternalIP is
selected; a node with an empty address list placed after a good node makes
the whole call error. -/
theorem c2_address_selection_witness :
    getNodeTargets [⟨NodeAddressType.externalIP, "1.2.3.4"⟩, ⟨NodeAddressType.internalIP, "2.3.4.5"⟩] =
      some (addressesOf NodeAddressType.externalIP
        [⟨NodeAddressType.externalIP, "1.2.3.4"⟩, ⟨NodeAddressType.internalIP, "2.3.4.5"⟩]) ∧
    ∃ e : GoError, nodeSourceEndpoints "" ([nodeTTL10] ++ nodeNoAddr :: []) = Except.error e :=
  ⟨c2_address_selection.1 _ (by decide),
   c2_address_selection.2.2.2.2 "" [nodeTTL10] [] nodeNoAddr (by decide) (by decide)⟩

/-- C8: TTL resolution — an absent TTL annotation, or one that does not
parse as a non-negative integer, leaves the emitted endpoint's TTL
unconfigured (value 0, flag false) and raises no error; the annotation
"10" yields TTL 10 with the flag true; the endpoint emitted for a node
always carries exactly the resolved TTL, and the only per-node error is
the no-address one. -/
theorem c8_ttl_resolution :
    (∀ anns : List (String × String),
        List.lookup ttlAnnotationKey anns = none →
          getTTLFromAnnotations anns = ⟨0, false⟩) ∧
    (∀ (anns : List (String × String)) (v : String),
        List.lookup ttlAnnotationKey anns = some v → parseNonNegInt v = none →
          getTTLFromAnnotations anns = ⟨0, false⟩) ∧
    getTTLFromAnnotations [(ttlAnnotationKey, "10")] = ⟨10, true⟩ ∧
    (∀ (tmpl : String) (n : Node) (ep : Endpoint),
        nodeEndpoint tmpl n = Except.ok ep →
          ep.recordTTL = getTTLFromAnnotations n.annotations) ∧
    (∀ (tmpl : String) (n : Node) (e : GoError),
        nodeEndpoint tmpl n = Except.error e → e = GoError.noAddresses n.name) := by
  refine ⟨?_, ?_, by decide, ?_, nodeEndpoint_error⟩
  · intro anns h
    simp [getTTLFromAnnotations, h]
  · intro anns v h hv
    simp [getTTLFromAnnotations, h, hv]
  · intro tmpl n ep h
    cases hg : getNodeTargets n.addresses <;> simp [nodeEndpoint, hg] at h
    rw [← h]

/-- C8 witness: the TTL-annotated node `nodeTTL10` is emitted with TTL 10
configured; an invalid annotation value and an absent annotation both
leave the TTL unconfigured. -/
theorem c8_ttl_resolution_witness :
    getTTLFromAnnotations [] = ⟨0, false⟩ ∧
    getTTLFromAnnotations [(ttlAnnotationKey, "foo")] = ⟨0, false⟩ ∧
    ({ dnsName := "node1", targets := ["1.2.3.4"], recordType := "A",
       recordTTL := ⟨10, true⟩, labels := some [] } : Endpoint).recordTTL =
      getTTLFromAnnotations nodeTTL10.annotations :=
  ⟨c8_ttl_resolution.1 [] rfl,
   c8_ttl_resolution.2.1 [(ttlAnnotationKey, "foo")] "foo" (by decide) (by decide),
   c8_ttl_resolution.2.2.2.1 "" nodeTTL10 _ rfl⟩

/-- C9: the node-producer constructor fails exactly on a syntactically
invalid FQDN template (the empty template and well-formed templates
succeed, the fixture's unclosed template fails); `Endpoints` never raises
a template error, only the no-address one; and the suppression-decorator
constructor always succeeds, returning the source whose `Endpoints`
post-filters and whose `AddEventHandler` forwards to its argument. -/
theorem c9_constructors :
    (∀ af tmpl : String,
        (∃ m : NodeSourceModel, NewNodeSource af tmpl = Except.ok m) ↔ validTemplate tmpl = true) ∧
    validTemplate "" = true ∧
    validTemplate "\x7b\x7b.Name\x7d\x7d-\x7b\x7b.Namespace\x7d\x7d.ext-dns.test.com" = true ∧
    validTemplate "\x7b\x7b.Name" = false ∧
    (∀ (tmpl : String) (nodes : List Node) (e : GoError),
        nodeSourceEndpoints tmpl nodes = Except.error e →
          ∃ nm : String, e = GoError.noAddresses nm) ∧
    (∀ s : Source,
        (∀ (ctx : Ctx) (f : Callback),
            (NewSuppressIPv6Source s).addEventHandler ctx f = s.addEventHandler ctx f) ∧
        (∀ ctx : Ctx,
            (NewSuppressIPv6Source s).endpoints ctx = suppressUpstream (s.endpoints ctx))) := by
  refine ⟨?_, by decide, by decide, by decide, ?_, fun s => ⟨fun ctx f => rfl, fun ctx => rfl⟩⟩
  · intro af tmpl
    constructor
    · intro ⟨m, hm⟩
      by_cases h : validTemplate tmpl = true
      · exact h
      · simp [NewNodeSource, h] at hm
    · intro h
      exact ⟨⟨af, tmpl⟩, by simp [NewNodeSource, h]⟩
  · intro tmpl nodes
    induction nodes with
    | nil => intro e h; simp [nodeSourceEndpoints] at h
    | cons n rest ih =>
      intro e h
      by_cases hn : ownedByUs n = true
      · cases hq : nodeEndpoint tmpl n with
        | error e2 =>
          rw [nodeEndpoint_error tmpl n e2 hq] at hq
          simp only [nodeSourceEndpoints, if_pos hn, hq] at h
          exact ⟨n.name, by injection h with h2; rw [← h2]⟩
        | ok ep =>
          simp only [nodeSourceEndpoints, if_pos hn, hq] at h
          cases hr : nodeSourceEndpoints tmpl rest with
          | error e3 =>
            rw [hr] at h
            simp only [Except.map] at h
            injection h with h2
            exact h2 ▸ ih e3 hr
          | ok eps =>
            rw [hr] at h
            simp [Except.map] at h
      · simp only [nodeSourceEndpoints, if_neg hn] at h
        exact ih e h

/-- C9 witness: the fixture's invalid template is rejected by the
constructor, the valid ones are accepted, and the failing `Endpoints` call
on an address-less node carries a no-address error. -/
theorem c9_constructors_witness :
    ((∃ m : NodeSourceModel, NewNodeSource "" "" = Except.ok m) ↔ validTemplate "" = true) ∧
    ¬ (∃ m : NodeSourceModel, NewNodeSource "" "\x7b\x7b.Name" = Except.ok m) ∧
    ∃ nm : String, GoError.noAddresses "node1" = GoError.noAddresses nm :=
  ⟨c9_constructors.1 "" "",
   fun hex => by
     have h := (c9_constructors.1 "" "\x7b\x7b.Name").mp hex
     rw [c9_constructors.2.2.2.1] at h
     exact Bool.false_ne_true h,
   c9_constructors.2.2.2.2.1 "" [nodeNoAddr] (GoError.noAddresses "node1") rfl⟩

/-- C3 witness: the all-IPv6 endpoint `epV6only` is omitted from the
result, and the endpoint emitted for `epMixed` has non-empty targets. -/
theorem c3_empty_targets_dropped_witness :
    suppressList ([] ++ epV6only :: []) = suppressList ([] ++ []) ∧
    ({ epMixed with targets := ["1.2.3.4"] } : Endpoint).targets ≠ [] :=
  ⟨c3_empty_targets_dropped.1 [] [] epV6only (by decide),
   c3_empty_targets_dropped.2 [epMixed] { epMixed with targets := ["1.2.3.4"] } (by decide)⟩
